import Mathlib

/-!
Shallow embedding of the emissions-factor module (model/emissionsfactors.py)
and of the adoption-wiring portion of the Nuclear scenario pipeline
(solution/nuclear/init.py), together with theorems settling the
specification claims about them.

Conventions of the embedding:
* Python floats are modelled exactly: table literals and scalar constants
  become rationals; the adoption-anchor arithmetic, which can produce
  IEEE infinities and NaN, is modelled by the type PyFloat below
  (signed zero is not modelled; no claim exercises it).
* Python strings are modelled by String; the case folding performed by
  str.lower is modelled on the list of character codes (the accepted
  synonym strings are all ASCII).
* Python exceptions become an explicit error type PyError, returned in
  Except.  ValueError carries its message as a list of character codes so
  that a message built from the offending input text is representable.
* Enum-typed configuration fields that may hold a value outside the enum
  (Python permits this) are modelled as Option: none stands for any
  non-member value, which compares unequal to every member, exactly as in
  the source.
-/

/-- The ten world regions used by every table in the model. -/
inductive Region where
  | World
  | OECD90
  | EasternEurope
  | AsiaSansJapan
  | MiddleEastAndAfrica
  | LatinAmerica
  | China
  | India
  | EU
  | USA
deriving DecidableEq, Repr

/-- Character codes of a string (Python strings compared by content). -/
def codes (s : String) : List Nat :=
  s.data.map Char.toNat

/-- ASCII lower-casing of one character code, as performed by str.lower
on the ASCII range. -/
def lowerCode (n : Nat) : Nat :=
  if 65 ≤ n ∧ n ≤ 90 then n + 32 else n

/-- Model of text.lower(): the character codes of the input, lower-cased. -/
def pyLower (s : String) : List Nat :=
  (codes s).map lowerCode

/-- Errors raised by the embedded code.  nameError models the Python
UnboundLocalError and NameError raised when an unassigned local is read.
unhandledAdoptionBasis is modelled from the spec: section 7 declares an
UnhandledAdoptionBasis error kind, but the source code defines no such
error, so the embedded code never produces this constructor. -/
inductive PyError where
  | valueError (msg : List Nat)
  | nameError (var : String)
  | unhandledAdoptionBasis (basis : String)
deriving DecidableEq, Repr

/-- Whether an error is the UnhandledAdoptionBasis kind of the spec. -/
def PyError.isUnhandledAdoptionBasis : PyError → Bool
  | .unhandledAdoptionBasis _ => true
  | _ => false

/-- CO2EQ_SOURCE = enum.Enum(AR5_WITH_FEEDBACK AR4 SAR). -/
inductive CO2EQ_SOURCE where
  | AR5_WITH_FEEDBACK
  | AR4
  | SAR
deriving DecidableEq, Repr

/-- GRID_SOURCE = enum.Enum(META IPCC). -/
inductive GRID_SOURCE where
  | META
  | IPCC
deriving DecidableEq, Repr

/-- GRID_RANGE = enum.Enum(MEAN HIGH LOW). -/
inductive GRID_RANGE where
  | MEAN
  | HIGH
  | LOW
deriving DecidableEq, Repr

/-- The CO2Equiv class: conversion source together with the CH4 and N2O
multipliers assigned by its constructor. -/
structure CO2Equiv where
  conversion_source : CO2EQ_SOURCE
  CH4multiplier : ℚ
  N2Omultiplier : ℚ
deriving DecidableEq, Repr

/-- Constructor of CO2Equiv: a falsy (absent) conversion source defaults to
AR5_WITH_FEEDBACK; the multipliers follow the if and elif chain of the
source.  The final else of the source raises ValueError but is unreachable
here because the chain covers every member of the closed enum. -/
def CO2Equiv.make (conversion_source : Option CO2EQ_SOURCE) : CO2Equiv :=
  let src := conversion_source.getD CO2EQ_SOURCE.AR5_WITH_FEEDBACK
  match src with
  | .AR5_WITH_FEEDBACK => ⟨src, 34, 298⟩
  | .AR4 => ⟨src, 25, 298⟩
  | .SAR => ⟨src, 21, 310⟩

/-- string_to_conversion_source: if and elif chain on text.lower(). -/
def string_to_conversion_source (text : String) : Except PyError CO2EQ_SOURCE :=
  if pyLower text = codes "ar5 with feedback" then
    .ok CO2EQ_SOURCE.AR5_WITH_FEEDBACK
  else if pyLower text = codes "ar5_with_feedback" then
    .ok CO2EQ_SOURCE.AR5_WITH_FEEDBACK
  else if pyLower text = codes "ar4" then
    .ok CO2EQ_SOURCE.AR4
  else if pyLower text = codes "sar" then
    .ok CO2EQ_SOURCE.SAR
  else
    .error (.valueError (codes "invalid conversion name=" ++ codes text))

/-- string_to_emissions_grid_source: if and elif chain on text.lower(). -/
def string_to_emissions_grid_source (text : String) : Except PyError GRID_SOURCE :=
  if pyLower text = codes "meta-analysis" then
    .ok GRID_SOURCE.META
  else if pyLower text = codes "meta_analysis" then
    .ok GRID_SOURCE.META
  else if pyLower text = codes "meta analysis" then
    .ok GRID_SOURCE.META
  else if pyLower text = codes "ipcc only" then
    .ok GRID_SOURCE.IPCC
  else if pyLower text = codes "ipcc_only" then
    .ok GRID_SOURCE.IPCC
  else
    .error (.valueError (codes "invalid grid source name=" ++ codes text))

/-- string_to_emissions_grid_range: if and elif chain on text.lower(). -/
def string_to_emissions_grid_range (text : String) : Except PyError GRID_RANGE :=
  if pyLower text = codes "mean" then
    .ok GRID_RANGE.MEAN
  else if pyLower text = codes "median" then
    .ok GRID_RANGE.MEAN
  else if pyLower text = codes "high" then
    .ok GRID_RANGE.HIGH
  else if pyLower text = codes "low" then
    .ok GRID_RANGE.LOW
  else
    .error (.valueError (codes "invalid grid range name=" ++ codes text))
/-- Embedded dataset world_meta_1 (Emissions Factors A290:D336).
Rows are (year, medium, high, low). -/
def world_meta_1 : List (Int × ℚ × ℚ × ℚ) := [
  (2015, 0.580491641, 0.726805942, 0.444419682),
  (2016, 0.580381730, 0.726494196, 0.444511607),
  (2017, 0.580191808, 0.726117383, 0.444508574),
  (2018, 0.579932742, 0.725684840, 0.444422987),
  (2019, 0.579613986, 0.725204693, 0.444265621),
  (2020, 0.581083120, 0.726403172, 0.446005409),
  (2021, 0.578829123, 0.724128766, 0.443771822),
  (2022, 0.578376324, 0.723544325, 0.443450666),
  (2023, 0.577890875, 0.722935374, 0.443088717),
  (2024, 0.577377675, 0.722306095, 0.442691597),
  (2025, 0.576724036, 0.721565698, 0.442124716),
  (2026, 0.576284921, 0.721000946, 0.441811237),
  (2027, 0.575712661, 0.720331282, 0.441336382),
  (2028, 0.575127412, 0.719653850, 0.440843316),
  (2029, 0.574531990, 0.718971040, 0.440335281),
  (2030, 0.573264022, 0.717635960, 0.439134425),
  (2031, 0.573320545, 0.717597727, 0.439285704),
  (2032, 0.572708901, 0.716910953, 0.438749190),
  (2033, 0.572095895, 0.716226301, 0.438207831),
  (2034, 0.571483259, 0.715545242, 0.437663617),
  (2035, 0.570821497, 0.714820866, 0.437064470),
  (2036, 0.570265395, 0.714199285, 0.436573847),
  (2037, 0.569663069, 0.713536875, 0.436031604),
  (2038, 0.569066909, 0.712883028, 0.435493132),
  (2039, 0.568478136, 0.712238796, 0.434959817),
  (2040, 0.567083308, 0.710887186, 0.433521771),
  (2041, 0.567327331, 0.710983152, 0.433913852),
  (2042, 0.566767481, 0.710373641, 0.433403663),
  (2043, 0.566219394, 0.709777559, 0.432903570),
  (2044, 0.565684079, 0.709195799, 0.432414701),
  (2045, 0.565044176, 0.708501694, 0.431829000),
  (2046, 0.564655700, 0.708078732, 0.431475009),
  (2047, 0.564164556, 0.707545143, 0.431026311),
  (2048, 0.563690051, 0.707029331, 0.430593113),
  (2049, 0.563233144, 0.706532169, 0.430176460),
  (2050, 0.563942003, 0.707108074, 0.431018275),
  (2051, 0.562376012, 0.705597348, 0.429397017),
  (2052, 0.561977781, 0.705161518, 0.429036385),
  (2053, 0.561601149, 0.704748013, 0.428696627),
  (2054, 0.561247194, 0.704357833, 0.428378896),
  (2055, 0.560917031, 0.703992021, 0.428084382),
  (2056, 0.560611819, 0.703651663, 0.427814318),
  (2057, 0.560332776, 0.703337903, 0.427569991),
  (2058, 0.560081211, 0.703051332, 0.427353431),
  (2059, 0.559858464, 0.702793863, 0.427165406),
  (2060, 0.559324305, 0.702254712, 0.426636240)]

/-- Embedded dataset world_ipcc (Emissions Factors F290:I336).
Rows are (year, medium, high, low). -/
def world_ipcc : List (Int × ℚ × ℚ × ℚ) := [
  (2015, 0.484233480, 0.954301231, 0.415714612),
  (2016, 0.483874688, 0.953705809, 0.415699168),
  (2017, 0.483468578, 0.953091500, 0.415616211),
  (2018, 0.483022234, 0.952462141, 0.415474740),
  (2019, 0.482541828, 0.951821094, 0.415282576),
  (2020, 0.483415642, 0.952177536, 0.416520905),
  (2021, 0.481499413, 0.950514956, 0.414772457),
  (2022, 0.480945957, 0.949854330, 0.414465552),
  (2023, 0.480375891, 0.949191227, 0.414130387),
  (2024, 0.479792370, 0.948527306, 0.413771029),
  (2025, 0.479129875, 0.947838144, 0.413292095),
  (2026, 0.478595824, 0.947202675, 0.412993760),
  (2027, 0.477987474, 0.946544387, 0.412581910),
  (2028, 0.477375135, 0.945890190, 0.412158129),
  (2029, 0.476760605, 0.945241008, 0.411724756),
  (2030, 0.475609145, 0.944163265, 0.410760519),
  (2031, 0.475531330, 0.943960978, 0.410837481),
  (2032, 0.474919397, 0.943331597, 0.410387213),
  (2033, 0.474310926, 0.942710164, 0.409934675),
  (2034, 0.473707024, 0.942097253, 0.409481303),
  (2035, 0.473069620, 0.941464119, 0.408987650),
  (2036, 0.472516993, 0.940899135, 0.408577287),
  (2037, 0.471932749, 0.940314945, 0.408129046),
  (2038, 0.471356841, 0.939741296, 0.407684776),
  (2039, 0.470790068, 0.939178633, 0.407245483),
  (2040, 0.469678045, 0.938292813, 0.406144088),
  (2041, 0.469686967, 0.938087976, 0.406385614),
  (2042, 0.469152097, 0.937560823, 0.405966834),
  (2043, 0.468629289, 0.937046344, 0.405556635),
  (2044, 0.468119233, 0.936544955, 0.405155846),
  (2045, 0.467511264, 0.935948981, 0.404676294),
  (2046, 0.467140087, 0.935583127, 0.404385714),
  (2047, 0.466672339, 0.935123538, 0.404017938),
  (2048, 0.466220042, 0.934678755, 0.403662725),
  (2049, 0.465783884, 0.934249237, 0.403320851),
  (2050, 0.466202378, 0.934415166, 0.403919170),
  (2051, 0.464962806, 0.933437919, 0.402680274),
  (2052, 0.464579339, 0.933057122, 0.402383178),
  (2053, 0.464214935, 0.932693614, 0.402102653),
  (2054, 0.463870396, 0.932347970, 0.401839564),
  (2055, 0.463546558, 0.932020796, 0.401594807),
  (2056, 0.463244299, 0.931712734, 0.401369308),
  (2057, 0.462964542, 0.931424470, 0.401164041),
  (2058, 0.462707434, 0.931155097, 0.400980276),
  (2059, 0.462474856, 0.930907038, 0.400818857),
  (2060, 0.462020537, 0.930512637, 0.400404559)]

/-- Embedded dataset world_meta_2 (A290:D336, 2020 Excel version).
Rows are (year, medium, high, low). -/
def world_meta_2 : List (Int × ℚ × ℚ × ℚ) := [
  (2015, 0.619753649484954, 0.834200994227942, 0.446911398737087),
  (2016, 0.613223327855322, 0.827419241197181, 0.441324423346894),
  (2017, 0.606715005275064, 0.817903147977287, 0.436594799095373),
  (2018, 0.602650482222055, 0.811957311805342, 0.433711588716669),
  (2019, 0.599546311600711, 0.808809196292089, 0.431043861809484),
  (2020, 0.595844101320605, 0.805066315637190, 0.427859783304937),
  (2021, 0.592313613174105, 0.801495614192573, 0.424823161474647),
  (2022, 0.588839905934230, 0.797975220897886, 0.421832598087871),
  (2023, 0.585449295836798, 0.794534135403531, 0.418911809360421),
  (2024, 0.582134106340607, 0.791164960038795, 0.416054306144423),
  (2025, 0.579212349557159, 0.788184425039760, 0.413534464382670),
  (2026, 0.575701698847632, 0.784615063765847, 0.410505236766206),
  (2027, 0.572571412159762, 0.781421736177582, 0.407802618493011),
  (2028, 0.569490331287843, 0.778275031115247, 0.405141116198009),
  (2029, 0.566452830841887, 0.775169515850856, 0.402515970114720),
  (2030, 0.563582610910188, 0.772224408553539, 0.400032800926231),
  (2031, 0.560487575191628, 0.769061765323778, 0.397356976482730),
  (2032, 0.557549996015452, 0.766050030587511, 0.394814811934275),
  (2033, 0.554636302401122, 0.763060441667938, 0.392292329996334),
  (2034, 0.551742154484868, 0.760088796218024, 0.389785854191242),
  (2035, 0.548784376564443, 0.757051944289887, 0.387224226526241),
  (2036, 0.545979252104998, 0.754165935635464, 0.384793649089973),
  (2037, 0.543106698312767, 0.751211316808699, 0.382304463418555),
  (2038, 0.540236787794954, 0.748258161570859, 0.379817005842378),
  (2039, 0.537352597396159, 0.745289123477943, 0.377317616531354),
  (2040, 0.534257808148527, 0.742113543256056, 0.374637411133684),
  (2041, 0.531581023073820, 0.739345510659962, 0.372313849192314),
  (2042, 0.528685258247064, 0.736362655581270, 0.369802465048003),
  (2043, 0.525775521926616, 0.733365101778856, 0.367278694303595),
  (2044, 0.522848765756972, 0.730349877395092, 0.364739945323485),
  (2045, 0.519796747547837, 0.727206616166885, 0.362092302098936),
  (2046, 0.516932341500910, 0.724254851488976, 0.359607432066743),
  (2047, 0.513936894157109, 0.721169405528371, 0.357008750494339),
  (2048, 0.510912853777991, 0.718054985950131, 0.354385243670808),
  (2049, 0.508316537396635, 0.715381773638989, 0.352134907312678),
  (2050, 0.506594921787481, 0.713622488394168, 0.350653654650227),
  (2051, 0.504688929275709, 0.711690195955989, 0.349010631116045),
  (2052, 0.502854324722711, 0.709827677277282, 0.347428887775673),
  (2053, 0.500981466874364, 0.707928699401097, 0.345814547929372),
  (2054, 0.499068430228993, 0.705991414176679, 0.344165978406253),
  (2055, 0.497072403296562, 0.703969699319331, 0.342445358912229),
  (2056, 0.495114656946048, 0.701995050774066, 0.340760075761759),
  (2057, 0.493070596435275, 0.699932787017676, 0.338999924825479),
  (2058, 0.490979702541600, 0.697825838098367, 0.337199902765339),
  (2059, 0.488840556318235, 0.695672846558836, 0.335358807437345),
  (2060, 0.486810301162345, 0.693612676011530, 0.333607332510495)]

/-- Positional row access: pandas assigns the selected grid column to the
result by position (.values), so row i of the grid feeds year 2015 + i. -/
def gridRow (g : List (Int × ℚ × ℚ × ℚ)) (y : Int) : Int × ℚ × ℚ × ℚ :=
  g.getD (y - 2015).toNat (0, 0, 0, 0)

/-- The medium column of a grid dataset, indexed by result year. -/
def rowMedium (g : List (Int × ℚ × ℚ × ℚ)) (y : Int) : ℚ :=
  (gridRow g y).2.1

/-- The high column of a grid dataset, indexed by result year. -/
def rowHigh (g : List (Int × ℚ × ℚ × ℚ)) (y : Int) : ℚ :=
  (gridRow g y).2.2.1

/-- The low column of a grid dataset, indexed by result year. -/
def rowLow (g : List (Int × ℚ × ℚ × ℚ)) (y : Int) : ℚ :=
  (gridRow g y).2.2.2

/-- The relevant fields of an AdvancedControls scenario configuration.
The enum-valued emissions fields are produced by the string conversion
functions above when the external advanced_controls collaborator builds
the configuration; Option none models a value outside the enum. -/
structure AdvancedControls where
  soln_ref_adoption_basis : String
  soln_pds_adoption_basis : String
  pds_base_adoption : List (Region × ℚ)
  pds_adoption_final_percentage : List (Region × ℚ)
  co2eq_conversion_source : Option CO2EQ_SOURCE
  emissions_grid_source : Option GRID_SOURCE
  emissions_grid_range : Option GRID_RANGE

/-- The ElectricityGenOnGrid class: configuration plus grid version. -/
structure ElectricityGenOnGrid where
  ac : AdvancedControls
  grid_emissions_version : Nat

/-- The result index: years 2015 through 2060. -/
def efYears : List Int :=
  (List.range 46).map (fun i => 2015 + (i : Int))

/-- A region-by-year table with its year index, as built by the emissions
factor methods. -/
structure EFTable where
  index : List Int
  val : Int → Region → ℚ

/-- The grid dataset selected by the source and version chain of
conv_ref_grid_CO2eq_per_KWh.  none models the Python local variable grid
being left unassigned: the chain has no catch-all branch. -/
def selectWorldGrid (src : Option GRID_SOURCE) (version : Nat) :
    Option (List (Int × ℚ × ℚ × ℚ)) :=
  if src = some GRID_SOURCE.IPCC then
    some world_ipcc
  else if src = some GRID_SOURCE.META ∧ version = 1 then
    some world_meta_1
  else if src = some GRID_SOURCE.META ∧ version = 2 then
    some world_meta_2
  else
    none

/-- One row of the CO2-eq table: the World column comes from the selected
grid column, the nine other regions are the fixed scalars assigned by
conv_ref_grid_CO2eq_per_KWh. -/
def co2eqVal (w : Int → ℚ) (y : Int) : Region → ℚ
  | .World => w y
  | .OECD90 => 0.454068989
  | .EasternEurope => 0.724747956
  | .AsiaSansJapan => 0.457658947
  | .MiddleEastAndAfrica => 0.282243907
  | .LatinAmerica => 0.564394712
  | .China => 0.535962403
  | .India => 0.787832379
  | .EU => 0.360629290
  | .USA => 0.665071666

/-- conv_ref_grid_CO2eq_per_KWh.  The source selects the grid dataset with
an if and elif chain that has no else, then branches on the grid range
(HIGH first, then LOW, then MEAN, exactly as in the source); reading the
unassigned local grid inside a matched range branch raises the unbound
local name error, and an unmatched range raises ValueError. -/
def conv_ref_grid_CO2eq_per_KWh (ef : ElectricityGenOnGrid) :
    Except PyError EFTable :=
  let grid? := selectWorldGrid ef.ac.emissions_grid_source ef.grid_emissions_version
  if ef.ac.emissions_grid_range = some GRID_RANGE.HIGH then
    match grid? with
    | none => .error (.nameError "grid")
    | some g => .ok ⟨efYears, co2eqVal (rowHigh g)⟩
  else if ef.ac.emissions_grid_range = some GRID_RANGE.LOW then
    match grid? with
    | none => .error (.nameError "grid")
    | some g => .ok ⟨efYears, co2eqVal (rowLow g)⟩
  else if ef.ac.emissions_grid_range = some GRID_RANGE.MEAN then
    match grid? with
    | none => .error (.nameError "grid")
    | some g => .ok ⟨efYears, co2eqVal (rowMedium g)⟩
  else
    .error (.valueError (codes "Invalid ac.emissions_grid_range"))

/-- The fixed scalars of conv_ref_grid_CO2_per_KWh, one per region,
broadcast to every year of the table. -/
def co2Val : Region → ℚ
  | .World => 0.484512031078339
  | .OECD90 => 0.392126590013504
  | .EasternEurope => 0.659977316856384
  | .AsiaSansJapan => 0.385555833578110
  | .MiddleEastAndAfrica => 0.185499981045723
  | .LatinAmerica => 0.491537630558014
  | .China => 0.474730312824249
  | .India => 0.725081980228424
  | .EU => 0.297016531229019
  | .USA => 0.594563066959381

/-- conv_ref_grid_CO2_per_KWh: every region column is one scalar assigned
to the whole 2015..2060 column; nothing of the configuration is read. -/
def conv_ref_grid_CO2_per_KWh (_ef : ElectricityGenOnGrid) : EFTable :=
  ⟨efYears, fun _y r => co2Val r⟩

/-- A Python float as produced by the pandas anchor arithmetic: a finite
rational, an infinity, or NaN.  Signed zero is not modelled. -/
inductive PyFloat where
  | fin (q : ℚ)
  | inf
  | ninf
  | nan
deriving DecidableEq, Repr

/-- IEEE multiplication on the PyFloat abstraction. -/
def PyFloat.mul : PyFloat → PyFloat → PyFloat
  | .nan, _ => .nan
  | .fin _, .nan => .nan
  | .inf, .nan => .nan
  | .ninf, .nan => .nan
  | .fin a, .fin b => .fin (a * b)
  | .fin a, .inf => if a = 0 then .nan else if 0 < a then .inf else .ninf
  | .fin a, .ninf => if a = 0 then .nan else if 0 < a then .ninf else .inf
  | .inf, .fin b => if b = 0 then .nan else if 0 < b then .inf else .ninf
  | .ninf, .fin b => if b = 0 then .nan else if 0 < b then .ninf else .inf
  | .inf, .inf => .inf
  | .inf, .ninf => .ninf
  | .ninf, .inf => .ninf
  | .ninf, .ninf => .inf

/-- IEEE division on the PyFloat abstraction.  Note that pandas float
division by zero yields an infinity or NaN, never a ZeroDivisionError. -/
def PyFloat.div : PyFloat → PyFloat → PyFloat
  | .nan, _ => .nan
  | .fin _, .nan => .nan
  | .inf, .nan => .nan
  | .ninf, .nan => .nan
  | .fin a, .fin b =>
      if b = 0 then
        (if a = 0 then .nan else if 0 < a then .inf else .ninf)
      else .fin (a / b)
  | .fin _, .inf => .fin 0
  | .fin _, .ninf => .fin 0
  | .inf, .fin b => if b < 0 then .ninf else .inf
  | .ninf, .fin b => if b < 0 then .inf else .ninf
  | .inf, .inf => .nan
  | .inf, .ninf => .nan
  | .ninf, .inf => .nan
  | .ninf, .ninf => .nan

/-- Series.fillna(d): NaN is replaced by d, everything else (infinities
included) is kept. -/
def PyFloat.fillna (x : PyFloat) (d : ℚ) : PyFloat :=
  match x with
  | .nan => .fin d
  | x => x

/-- The hard-coded ht_ref_adoption_initial series of the Nuclear pipeline
(adoption in 2014, one value per region). -/
def ht_ref_adoption_initial : Region → ℚ
  | .World => 2417.0
  | .OECD90 => 2067.538596846472
  | .EasternEurope => 337.7907984353286
  | .AsiaSansJapan => 422.9280547381077
  | .MiddleEastAndAfrica => 19.434007595770563
  | .LatinAmerica => 34.286204887889326
  | .China => 186.72565568543357
  | .India => 81.7511387032866
  | .EU => 911.5844464681002
  | .USA => 822.7334922881862

/-- Reading a pandas Series built from a (region, value) list at a region:
a region absent from the list aligns to NaN. -/
def seriesLookup (l : List (Region × ℚ)) (r : Region) : PyFloat :=
  match l.lookup r with
  | some q => .fin q
  | none => .nan

/-- The collaborator results consumed by the adoption-wiring portion of
Nuclear.init: the 2014 and 2050 rows of the two total-addressable-market
tables, and the outputs of the custom-adoption (pds_ca, ref_ca) and
prognostication (ad) collaborators.  The adoption tables are opaque to
this portion of the code, hence the type parameter. -/
structure NuclearInputs (α : Type) where
  ref_tam_2014 : Region → PyFloat
  ref_tam_2050 : Region → PyFloat
  pds_tam_2050 : Region → PyFloat
  pds_ca_data : α
  pds_ca_trend : α
  ad_data : α
  ad_trend : α
  ad_is_single_source : Bool
  ref_ca_data : α

/-- What the adoption-wiring portion of Nuclear.init passes on to the
helper-tables collaborator: the selected adoption data and trend tables,
the single-source flag, and the two-point anchor rows. -/
structure AdoptionWiring (α : Type) where
  pds_adoption_data_per_region : α
  pds_adoption_trend_per_region : α
  pds_adoption_is_single_source : Option Bool
  ref_adoption_data_per_region : Option α
  ht_ref_datapoints_2014 : Region → PyFloat
  ht_ref_datapoints_2050 : Region → PyFloat
  ht_pds_datapoints_2014 : Region → PyFloat
  ht_pds_datapoints_2050 : Region → PyFloat

/-- The reference anchor product before fillna:
ref_tam_per_region.loc[2050] * (ht_ref_adoption_initial / ref_tam_per_region.loc[2014]). -/
def htRefFinal (α : Type) (inp : NuclearInputs α) (r : Region) : PyFloat :=
  PyFloat.mul (inp.ref_tam_2050 r)
    (PyFloat.div (.fin (ht_ref_adoption_initial r)) (inp.ref_tam_2014 r))

/-- The intervention anchor product before fillna:
ht_pds_adoption_final_percentage * pds_tam_per_region.loc[2050]. -/
def htPdsFinal (α : Type) (ac : AdvancedControls) (inp : NuclearInputs α)
    (r : Region) : PyFloat :=
  PyFloat.mul (seriesLookup ac.pds_adoption_final_percentage r) (inp.pds_tam_2050 r)

/-- The adoption-wiring portion of Nuclear.init (source lines 648..687).
The elif chain on soln_pds_adoption_basis has no else branch: any other
basis leaves pds_adoption_data_per_region (and its two companions)
unassigned, and the HelperTables call that reads them raises the unbound
local name error.  The anchor rows are built with fillna(0.0) applied to
the 2050 values. -/
def nuclearAdoptionWiring (α : Type) (ac : AdvancedControls)
    (inp : NuclearInputs α) : Except PyError (AdoptionWiring α) :=
  let ref_adoption_data_per_region : Option α :=
    if ac.soln_ref_adoption_basis = "Custom" then some inp.ref_ca_data else none
  let pdsSel : Option (α × α × Option Bool) :=
    if ac.soln_pds_adoption_basis = "Fully Customized PDS" then
      some (inp.pds_ca_data, inp.pds_ca_trend, none)
    else if ac.soln_pds_adoption_basis = "Existing Adoption Prognostications" then
      some (inp.ad_data, inp.ad_trend, some inp.ad_is_single_source)
    else
      none
  match pdsSel with
  | none => .error (.nameError "pds_adoption_data_per_region")
  | some (d, t, s) =>
      .ok ⟨d, t, s, ref_adoption_data_per_region,
        fun r => .fin (ht_ref_adoption_initial r),
        fun r => PyFloat.fillna (htRefFinal α inp r) 0,
        fun r => .fin (ht_ref_adoption_initial r),
        fun r => PyFloat.fillna (htPdsFinal α ac inp r) 0⟩

/-- pds_base_adoption, identical in the three Nuclear scenarios. -/
def nuclearBaseAdoption : List (Region × ℚ) :=
  [(.World, 2417.0), (.OECD90, 2067.538596846472), (.EasternEurope, 337.7907984353286),
   (.AsiaSansJapan, 422.9280547381077), (.MiddleEastAndAfrica, 19.434007595770563),
   (.LatinAmerica, 34.286204887889326), (.China, 186.72565568543357),
   (.India, 81.7511387032866), (.EU, 911.5844464681002), (.USA, 822.7334922881862)]

/-- pds_adoption_final_percentage, identical in the three Nuclear
scenarios: 0.0 for every region. -/
def nuclearFinalPercentage : List (Region × ℚ) :=
  [(.World, 0.0), (.OECD90, 0.0), (.EasternEurope, 0.0), (.AsiaSansJapan, 0.0),
   (.MiddleEastAndAfrica, 0.0), (.LatinAmerica, 0.0), (.China, 0.0),
   (.India, 0.0), (.EU, 0.0), (.USA, 0.0)]

/-- The PDS-0p2050-Optimum (Book Ed.1) scenario: soln_pds_adoption_basis
is Fully Customized PDS; the emissions methodology strings of the scenario
are resolved through the string conversion functions, as the external
advanced_controls collaborator does. -/
def ac_optimum : AdvancedControls :=
  ⟨"Default", "Fully Customized PDS", nuclearBaseAdoption, nuclearFinalPercentage,
   (string_to_conversion_source "AR5 with feedback").toOption,
   (string_to_emissions_grid_source "Meta-Analysis").toOption,
   (string_to_emissions_grid_range "Mean").toOption⟩

/-- The PDS-12p2050-Plausible (Book Ed. 1) scenario: soln_pds_adoption_basis
is Existing Adoption Prognostications and soln_ref_adoption_basis is Custom. -/
def ac_plausible : AdvancedControls :=
  ⟨"Custom", "Existing Adoption Prognostications", nuclearBaseAdoption, nuclearFinalPercentage,
   (string_to_conversion_source "AR5 with feedback").toOption,
   (string_to_emissions_grid_source "Meta-Analysis").toOption,
   (string_to_emissions_grid_range "Mean").toOption⟩

/-- A configuration selecting IPCC with the MEAN range, version 1. -/
def efIPCCmean : ElectricityGenOnGrid :=
  ⟨⟨"Default", "Existing Adoption Prognostications", nuclearBaseAdoption,
    nuclearFinalPercentage, some CO2EQ_SOURCE.AR5_WITH_FEEDBACK,
    some GRID_SOURCE.IPCC, some GRID_RANGE.MEAN⟩, 1⟩

/-- A configuration selecting META with the HIGH range, version 1. -/
def efMETAhigh1 : ElectricityGenOnGrid :=
  ⟨⟨"Default", "Existing Adoption Prognostications", nuclearBaseAdoption,
    nuclearFinalPercentage, some CO2EQ_SOURCE.AR5_WITH_FEEDBACK,
    some GRID_SOURCE.META, some GRID_RANGE.HIGH⟩, 1⟩

/-- A configuration selecting META with the MEAN range and version 3,
which no branch of the grid selection chain handles. -/
def efMETA3mean : ElectricityGenOnGrid :=
  ⟨⟨"Default", "Existing Adoption Prognostications", nuclearBaseAdoption,
    nuclearFinalPercentage, some CO2EQ_SOURCE.AR5_WITH_FEEDBACK,
    some GRID_SOURCE.META, some GRID_RANGE.MEAN⟩, 3⟩

/-- A concrete collaborator-input record with finite market values. -/
def inp0 : NuclearInputs Nat :=
  ⟨fun _ => .fin 100, fun _ => .fin 50, fun _ => .fin 80, 1, 2, 3, 4, true, 5⟩

/-- A concrete collaborator-input record whose 2050 intervention market
row is NaN for every region. -/
def inpNaN : NuclearInputs Nat :=
  ⟨fun _ => .fin 100, fun _ => .fin 50, fun _ => .nan, 1, 2, 3, 4, true, 5⟩

/-- A concrete collaborator-input record whose market rows are zero for
every region, exercising the division-by-zero path of the anchors. -/
def inpZero : NuclearInputs Nat :=
  ⟨fun _ => .fin 0, fun _ => .fin 0, fun _ => .fin 0, 1, 2, 3, 4, true, 5⟩

/-- A configuration whose soln_pds_adoption_basis matches no branch of the
elif chain of the wiring. -/
def ac_bogus : AdvancedControls :=
  ⟨"Default", "Bogus Basis", nuclearBaseAdoption, nuclearFinalPercentage,
   none, none, none⟩

/-- Accepted lower-cased synonym strings of string_to_conversion_source. -/
def convSynonyms : List (List Nat) :=
  [codes "ar5 with feedback", codes "ar5_with_feedback", codes "ar4", codes "sar"]

/-- Accepted lower-cased synonym strings of string_to_emissions_grid_source. -/
def gridSourceSynonyms : List (List Nat) :=
  [codes "meta-analysis", codes "meta_analysis", codes "meta analysis",
   codes "ipcc only", codes "ipcc_only"]

/-- Accepted lower-cased synonym strings of string_to_emissions_grid_range. -/
def gridRangeSynonyms : List (List Nat) :=
  [codes "mean", codes "median", codes "high", codes "low"]

deriving instance DecidableEq for Except

/-- C3: CO2Equiv yields multipliers 34/298 for AR5_WITH_FEEDBACK, 25/298
for AR4, 21/310 for SAR, and with no conversion source given it defaults
to AR5_WITH_FEEDBACK with the same multipliers. -/
theorem co2equiv_multipliers :
    CO2Equiv.make (some CO2EQ_SOURCE.AR5_WITH_FEEDBACK) =
      ⟨CO2EQ_SOURCE.AR5_WITH_FEEDBACK, 34, 298⟩ ∧
    CO2Equiv.make (some CO2EQ_SOURCE.AR4) = ⟨CO2EQ_SOURCE.AR4, 25, 298⟩ ∧
    CO2Equiv.make (some CO2EQ_SOURCE.SAR) = ⟨CO2EQ_SOURCE.SAR, 21, 310⟩ ∧
    CO2Equiv.make none = CO2Equiv.make (some CO2EQ_SOURCE.AR5_WITH_FEEDBACK) :=
  ⟨rfl, rfl, rfl, rfl⟩

/-- C5: the three text conversion functions are case-insensitive (their
parsed result depends only on the lower-cased character codes of the
input) and map every accepted synonym of one category value to the
identical enum member. -/
theorem methodology_parsing_synonyms :
    (∀ s t, pyLower s = pyLower t → ∀ v,
       string_to_conversion_source s = .ok v ↔ string_to_conversion_source t = .ok v) ∧
    (∀ s t, pyLower s = pyLower t → ∀ v,
       string_to_emissions_grid_source s = .ok v ↔ string_to_emissions_grid_source t = .ok v) ∧
    (∀ s t, pyLower s = pyLower t → ∀ v,
       string_to_emissions_grid_range s = .ok v ↔ string_to_emissions_grid_range t = .ok v) ∧
    string_to_conversion_source "AR5 with feedback" = .ok CO2EQ_SOURCE.AR5_WITH_FEEDBACK ∧
    string_to_conversion_source "AR5_with_feedback" = .ok CO2EQ_SOURCE.AR5_WITH_FEEDBACK ∧
    string_to_conversion_source "AR4" = .ok CO2EQ_SOURCE.AR4 ∧
    string_to_conversion_source "SAR" = .ok CO2EQ_SOURCE.SAR ∧
    string_to_emissions_grid_source "Meta-Analysis" = .ok GRID_SOURCE.META ∧
    string_to_emissions_grid_source "Meta_Analysis" = .ok GRID_SOURCE.META ∧
    string_to_emissions_grid_source "Meta Analysis" = .ok GRID_SOURCE.META ∧
    string_to_emissions_grid_source "IPCC Only" = .ok GRID_SOURCE.IPCC ∧
    string_to_emissions_grid_source "IPCC_Only" = .ok GRID_SOURCE.IPCC ∧
    string_to_emissions_grid_range "Mean" = .ok GRID_RANGE.MEAN ∧
    string_to_emissions_grid_range "Median" = .ok GRID_RANGE.MEAN ∧
    string_to_emissions_grid_range "High" = .ok GRID_RANGE.HIGH ∧
    string_to_emissions_grid_range "Low" = .ok GRID_RANGE.LOW :=
  ⟨fun s t h v => by
     simp only [string_to_conversion_source, h]
     split_ifs <;> simp,
   fun s t h v => by
     simp only [string_to_emissions_grid_source, h]
     split_ifs <;> simp,
   fun s t h v => by
     simp only [string_to_emissions_grid_range, h]
     split_ifs <;> simp,
   by decide⟩

/-- Witness for C5 at a concrete input: the upper-cased variant lowers to
the same codes as the accepted synonym, so parsing agrees on both. -/
theorem methodology_parsing_synonyms_witness :
    pyLower "AR5 WITH FEEDBACK" = pyLower "ar5 with feedback" ∧
    (string_to_conversion_source "AR5 WITH FEEDBACK" = .ok CO2EQ_SOURCE.AR5_WITH_FEEDBACK ↔
      string_to_conversion_source "ar5 with feedback" = .ok CO2EQ_SOURCE.AR5_WITH_FEEDBACK) :=
  ⟨by decide,
   methodology_parsing_synonyms.1 "AR5 WITH FEEDBACK" "ar5 with feedback" (by decide)
     CO2EQ_SOURCE.AR5_WITH_FEEDBACK⟩

/-- C6: an input whose lower-cased codes match no accepted synonym makes
each conversion function fail with a ValueError whose message carries the
input text; no default member is returned. -/
theorem methodology_parsing_rejects_unknown :
    (∀ t, pyLower t ∉ convSynonyms →
       string_to_conversion_source t =
         .error (.valueError (codes "invalid conversion name=" ++ codes t))) ∧
    (∀ t, pyLower t ∉ gridSourceSynonyms →
       string_to_emissions_grid_source t =
         .error (.valueError (codes "invalid grid source name=" ++ codes t))) ∧
    (∀ t, pyLower t ∉ gridRangeSynonyms →
       string_to_emissions_grid_range t =
         .error (.valueError (codes "invalid grid range name=" ++ codes t))) ∧
    string_to_conversion_source "AR6" =
      .error (.valueError (codes "invalid conversion name=" ++ codes "AR6")) ∧
    string_to_emissions_grid_source "bogus" =
      .error (.valueError (codes "invalid grid source name=" ++ codes "bogus")) ∧
    string_to_emissions_grid_range "bogus" =
      .error (.valueError (codes "invalid grid range name=" ++ codes "bogus")) := by
  refine ⟨?_, ?_, ?_, by decide⟩
  · intro t h
    simp only [convSynonyms, List.mem_cons, List.not_mem_nil, or_false, not_or] at h
    obtain ⟨h1, h2, h3, h4⟩ := h
    simp only [string_to_conversion_source, h1, h2, h3, h4, if_false]
  · intro t h
    simp only [gridSourceSynonyms, List.mem_cons, List.not_mem_nil, or_false, not_or] at h
    obtain ⟨h1, h2, h3, h4, h5⟩ := h
    simp only [string_to_emissions_grid_source, h1, h2, h3, h4, h5, if_false]
  · intro t h
    simp only [gridRangeSynonyms, List.mem_cons, List.not_mem_nil, or_false, not_or] at h
    obtain ⟨h1, h2, h3, h4⟩ := h
    simp only [string_to_emissions_grid_range, h1, h2, h3, h4, if_false]

/-- Witness for C6 at a concrete input: AR6 matches no accepted synonym
and is rejected with the message carrying the text. -/
theorem methodology_parsing_rejects_unknown_witness :
    pyLower "AR6" ∉ convSynonyms ∧
    string_to_conversion_source "AR6" =
      .error (.valueError (codes "invalid conversion name=" ++ codes "AR6")) :=
  ⟨by decide, methodology_parsing_rejects_unknown.1 "AR6" (by decide)⟩

/-- C2: conv_ref_grid_CO2eq_per_KWh takes the World column from the
dataset selected by source and version (IPCC selects world_ipcc whatever
the version, META selects world_meta_1 or world_meta_2 by version), with
MEAN mapped to the medium column, HIGH to high and LOW to low; a range
outside the enum fails with the ValueError guard; and the quoted World
values hold exactly. -/
theorem grid_co2eq_world_selection :
    (∀ v, selectWorldGrid (some GRID_SOURCE.IPCC) v = some world_ipcc) ∧
    selectWorldGrid (some GRID_SOURCE.META) 1 = some world_meta_1 ∧
    selectWorldGrid (some GRID_SOURCE.META) 2 = some world_meta_2 ∧
    (∀ (ef : ElectricityGenOnGrid) (g : List (Int × ℚ × ℚ × ℚ)),
      selectWorldGrid ef.ac.emissions_grid_source ef.grid_emissions_version = some g →
      (ef.ac.emissions_grid_range = some GRID_RANGE.MEAN →
         conv_ref_grid_CO2eq_per_KWh ef = .ok ⟨efYears, co2eqVal (rowMedium g)⟩) ∧
      (ef.ac.emissions_grid_range = some GRID_RANGE.HIGH →
         conv_ref_grid_CO2eq_per_KWh ef = .ok ⟨efYears, co2eqVal (rowHigh g)⟩) ∧
      (ef.ac.emissions_grid_range = some GRID_RANGE.LOW →
         conv_ref_grid_CO2eq_per_KWh ef = .ok ⟨efYears, co2eqVal (rowLow g)⟩)) ∧
    (∀ ef : ElectricityGenOnGrid, ef.ac.emissions_grid_range = none →
       conv_ref_grid_CO2eq_per_KWh ef =
         .error (.valueError (codes "Invalid ac.emissions_grid_range"))) ∧
    (conv_ref_grid_CO2eq_per_KWh efIPCCmean).map (fun t => t.val 2015 Region.World) =
      .ok 0.484233480 ∧
    (conv_ref_grid_CO2eq_per_KWh efIPCCmean).map (fun t => t.val 2060 Region.World) =
      .ok 0.462020537 ∧
    (conv_ref_grid_CO2eq_per_KWh efMETAhigh1).map (fun t => t.val 2015 Region.World) =
      .ok 0.726805942 := by
  refine ⟨fun v => rfl, rfl, rfl, ?_, ?_, rfl, rfl, rfl⟩
  · intro ef g hg
    refine ⟨fun hr => ?_, fun hr => ?_, fun hr => ?_⟩ <;>
      simp [conv_ref_grid_CO2eq_per_KWh, hg, hr]
  · intro ef hr
    simp [conv_ref_grid_CO2eq_per_KWh, hr]

/-- Witness for C2 at a concrete input: the IPCC dataset is selected for
the IPCC source, and the MEAN range projects its medium column. -/
theorem grid_co2eq_world_selection_witness :
    selectWorldGrid efIPCCmean.ac.emissions_grid_source efIPCCmean.grid_emissions_version =
      some world_ipcc ∧
    efIPCCmean.ac.emissions_grid_range = some GRID_RANGE.MEAN ∧
    conv_ref_grid_CO2eq_per_KWh efIPCCmean = .ok ⟨efYears, co2eqVal (rowMedium world_ipcc)⟩ :=
  ⟨rfl, rfl, (grid_co2eq_world_selection.2.2.2.1 efIPCCmean world_ipcc rfl).1 rfl⟩

/-- C7: conv_ref_grid_CO2_per_KWh does not depend on the configuration at
all (same table for any grid source, range and version), its index is the
years 2015 through 2060, every cell of a region column holds the one
scalar of that region for every year, and the World and USA scalars are
the quoted reference values. -/
theorem grid_co2_constant :
    (∀ ef1 ef2 : ElectricityGenOnGrid,
       conv_ref_grid_CO2_per_KWh ef1 = conv_ref_grid_CO2_per_KWh ef2) ∧
    (∀ ef : ElectricityGenOnGrid, (conv_ref_grid_CO2_per_KWh ef).index = efYears) ∧
    efYears = [2015, 2016, 2017, 2018, 2019, 2020, 2021, 2022, 2023, 2024, 2025,
      2026, 2027, 2028, 2029, 2030, 2031, 2032, 2033, 2034, 2035, 2036, 2037,
      2038, 2039, 2040, 2041, 2042, 2043, 2044, 2045, 2046, 2047, 2048, 2049,
      2050, 2051, 2052, 2053, 2054, 2055, 2056, 2057, 2058, 2059, 2060] ∧
    (∀ (ef : ElectricityGenOnGrid) (y : Int) (r : Region),
       (conv_ref_grid_CO2_per_KWh ef).val y r = co2Val r) ∧
    co2Val Region.World = 0.484512031078339 ∧
    co2Val Region.USA = 0.594563066959381 :=
  ⟨fun _ _ => rfl, fun _ => rfl, by decide, fun _ _ _ => rfl, rfl, rfl⟩

/-- Every cell of a non-World region column of the CO2-eq table is the
fixed scalar of that region, whatever the World column function is. -/
theorem co2eqVal_nonworld_const (w1 w2 : Int → ℚ) (y1 y2 : Int) (r : Region)
    (h : r ≠ Region.World) : co2eqVal w1 y1 r = co2eqVal w2 y2 r := by
  cases r
  · exact absurd rfl h
  all_goals rfl

/-- C8: in every table conv_ref_grid_CO2eq_per_KWh returns, each non-World
region column is constant across years, whatever the source, range and
version; the OECD90 and India constants are the quoted values. -/
theorem grid_co2eq_nonworld_constant :
    (∀ (ef : ElectricityGenOnGrid) (t : EFTable),
       conv_ref_grid_CO2eq_per_KWh ef = .ok t →
       ∀ r, r ≠ Region.World → ∀ y z, t.val y r = t.val z r) ∧
    (∀ (ef : ElectricityGenOnGrid) (t : EFTable),
       conv_ref_grid_CO2eq_per_KWh ef = .ok t →
       t.val 2015 Region.OECD90 = 0.454068989 ∧
       t.val 2015 Region.India = 0.787832379) := by
  have main : ∀ (ef : ElectricityGenOnGrid) (t : EFTable),
      conv_ref_grid_CO2eq_per_KWh ef = .ok t →
      ∃ w, t = ⟨efYears, co2eqVal w⟩ := by
    intro ef t h
    simp only [conv_ref_grid_CO2eq_per_KWh] at h
    split at h
    · split at h
      · exact Except.noConfusion h
      · exact ⟨_, (Except.ok.inj h).symm⟩
    · split at h
      · split at h
        · exact Except.noConfusion h
        · exact ⟨_, (Except.ok.inj h).symm⟩
      · split at h
        · split at h
          · exact Except.noConfusion h
          · exact ⟨_, (Except.ok.inj h).symm⟩
        · exact Except.noConfusion h
  constructor
  · intro ef t h r hr y z
    obtain ⟨w, rfl⟩ := main ef t h
    exact co2eqVal_nonworld_const w w y z r hr
  · intro ef t h
    obtain ⟨w, rfl⟩ := main ef t h
    exact ⟨rfl, rfl⟩

/-- Witness for C8 at a concrete input: the META HIGH version 1 table has
the same Eastern Europe value in 2015 and 2060. -/
theorem grid_co2eq_nonworld_constant_witness :
    conv_ref_grid_CO2eq_per_KWh efMETAhigh1 = .ok ⟨efYears, co2eqVal (rowHigh world_meta_1)⟩ ∧
    (co2eqVal (rowHigh world_meta_1) : Int → Region → ℚ) 2015 Region.EasternEurope =
      co2eqVal (rowHigh world_meta_1) 2060 Region.EasternEurope :=
  ⟨rfl,
   grid_co2eq_nonworld_constant.1 efMETAhigh1 ⟨efYears, co2eqVal (rowHigh world_meta_1)⟩ rfl
     Region.EasternEurope (by decide) 2015 2060⟩

/-- The grid selection chain yields no dataset when the source is META
with a version other than 1 or 2, or when the source is no member of the
enum. -/
theorem selectWorldGrid_none (src : Option GRID_SOURCE) (version : Nat)
    (h : src = some GRID_SOURCE.META ∧ version ≠ 1 ∧ version ≠ 2 ∨ src = none) :
    selectWorldGrid src version = none := by
  rcases h with ⟨hs, h1, h2⟩ | hs
  · simp [selectWorldGrid, hs, h1, h2]
  · simp [selectWorldGrid, hs]

/-- C10: with META and a version that is neither 1 nor 2, or with a source
outside the enum, conv_ref_grid_CO2eq_per_KWh fails with the unbound-local
name error on grid for every range in the enum, not with the ValueError
guard of the declared methodology errors. -/
theorem grid_co2eq_unbound_grid :
    ∀ ef : ElectricityGenOnGrid,
      (ef.ac.emissions_grid_source = some GRID_SOURCE.META ∧
         ef.grid_emissions_version ≠ 1 ∧ ef.grid_emissions_version ≠ 2 ∨
       ef.ac.emissions_grid_source = none) →
      (ef.ac.emissions_grid_range = some GRID_RANGE.MEAN ∨
       ef.ac.emissions_grid_range = some GRID_RANGE.HIGH ∨
       ef.ac.emissions_grid_range = some GRID_RANGE.LOW) →
      conv_ref_grid_CO2eq_per_KWh ef = .error (.nameError "grid") ∧
      (∀ msg, (PyError.nameError "grid") ≠ PyError.valueError msg) := by
  intro ef hsrc hrange
  have hnone := selectWorldGrid_none ef.ac.emissions_grid_source ef.grid_emissions_version hsrc
  refine ⟨?_, fun msg => by simp⟩
  rcases hrange with hr | hr | hr <;>
    simp [conv_ref_grid_CO2eq_per_KWh, hnone, hr]

/-- Witness for C10 at a concrete input: META with version 3 and the MEAN
range fails with the name error on grid. -/
theorem grid_co2eq_unbound_grid_witness :
    conv_ref_grid_CO2eq_per_KWh efMETA3mean = .error (.nameError "grid") :=
  (grid_co2eq_unbound_grid efMETA3mean
    (Or.inl ⟨rfl, by decide, by decide⟩) (Or.inl rfl)).1

/-- C1: under the Optimum scenario (soln_pds_adoption_basis is Fully
Customized PDS) the wiring takes adoption data and trend from the
custom-adoption collaborator pds_ca, not from the prognostication
collaborator ad, passes none for the single-source flag, and anchors the
2050 intervention row at the final-percentage times the 2050 market row
with fillna(0.0); a NaN product resolves to 0.0. -/
theorem nuclear_optimum_custom_adoption :
    (∀ (α : Type) (inp : NuclearInputs α),
      nuclearAdoptionWiring α ac_optimum inp =
        .ok ⟨inp.pds_ca_data, inp.pds_ca_trend, none, none,
          fun r => .fin (ht_ref_adoption_initial r),
          fun r => PyFloat.fillna (htRefFinal α inp r) 0,
          fun r => .fin (ht_ref_adoption_initial r),
          fun r => PyFloat.fillna (htPdsFinal α ac_optimum inp r) 0⟩) ∧
    (∀ (α : Type) (inp : NuclearInputs α) (r : Region),
      htPdsFinal α ac_optimum inp r = PyFloat.nan →
        PyFloat.fillna (htPdsFinal α ac_optimum inp r) 0 = PyFloat.fin 0) :=
  ⟨fun _ _ => rfl, fun _ _ _ h => by rw [h]; rfl⟩

/-- Witness for C1 at a concrete input: a NaN 2050 market value makes the
anchor product NaN, which the wiring resolves to 0.0. -/
theorem nuclear_optimum_custom_adoption_witness :
    htPdsFinal Nat ac_optimum inpNaN Region.World = PyFloat.nan ∧
    PyFloat.fillna (htPdsFinal Nat ac_optimum inpNaN Region.World) 0 = PyFloat.fin 0 :=
  ⟨rfl, nuclear_optimum_custom_adoption.2 Nat inpNaN Region.World rfl⟩

/-- Every hard-coded initial adoption value is positive. -/
theorem ht_ref_initial_pos (r : Region) : 0 < ht_ref_adoption_initial r := by
  cases r <;> norm_num [ht_ref_adoption_initial]

/-- The 2050 reference anchor field of a successful wiring is the fillna
image of the scaled market ratio. -/
theorem wiring_ht_ref_2050 (α : Type) (ac : AdvancedControls)
    (inp : NuclearInputs α) (w : AdoptionWiring α)
    (h : nuclearAdoptionWiring α ac inp = .ok w) :
    w.ht_ref_datapoints_2050 = fun r => PyFloat.fillna (htRefFinal α inp r) 0 := by
  simp only [nuclearAdoptionWiring] at h
  split at h
  · exact Except.noConfusion h
  · obtain rfl := Except.ok.inj h
    rfl

/-- A zero 2050 reference market value forces the anchor to zero, whatever
the 2014 market value is (finite, zero, infinite or NaN). -/
theorem ref_anchor_zero (α : Type) (inp : NuclearInputs α) (r : Region)
    (h : inp.ref_tam_2050 r = .fin 0) :
    PyFloat.fillna (htRefFinal α inp r) 0 = .fin 0 := by
  have hpos := ht_ref_initial_pos r
  have hne : ht_ref_adoption_initial r ≠ 0 := ne_of_gt hpos
  unfold htRefFinal
  rw [h]
  rcases h14 : inp.ref_tam_2014 r with q | _ | _ | _
  · by_cases hq : q = 0
    · subst hq
      simp [PyFloat.div, PyFloat.mul, PyFloat.fillna, hne, hpos]
    · simp [PyFloat.div, PyFloat.mul, PyFloat.fillna, hq]
  · simp [PyFloat.div, PyFloat.mul, PyFloat.fillna]
  · simp [PyFloat.div, PyFloat.mul, PyFloat.fillna]
  · simp [PyFloat.div, PyFloat.mul, PyFloat.fillna]

/-- C4: in every successful wiring the 2050 reference anchor of each
region is the 2014 base adoption scaled by the 2050 over 2014 market
ratio with fillna(0.0): a zero 2050 market propagates zero, a NaN product
resolves to 0.0, and construction succeeds for every market input (zero
denominators included) under a handled adoption basis, so no division
error ever occurs. -/
theorem nuclear_ref_anchor_scaling :
    (∀ (α : Type) (ac : AdvancedControls) (inp : NuclearInputs α) (w : AdoptionWiring α),
      nuclearAdoptionWiring α ac inp = .ok w →
      (∀ r, w.ht_ref_datapoints_2050 r = PyFloat.fillna (htRefFinal α inp r) 0) ∧
      (∀ r, inp.ref_tam_2050 r = .fin 0 → w.ht_ref_datapoints_2050 r = .fin 0) ∧
      (∀ r, htRefFinal α inp r = PyFloat.nan → w.ht_ref_datapoints_2050 r = .fin 0)) ∧
    (∀ (α : Type) (ac : AdvancedControls) (inp : NuclearInputs α),
      ac.soln_pds_adoption_basis = "Fully Customized PDS" →
      ∃ w, nuclearAdoptionWiring α ac inp = .ok w) := by
  constructor
  · intro α ac inp w h
    have hw := wiring_ht_ref_2050 α ac inp w h
    refine ⟨fun r => by rw [hw], fun r hz => ?_, fun r hn => ?_⟩
    · rw [hw]
      exact ref_anchor_zero α inp r hz
    · rw [hw]
      show PyFloat.fillna (htRefFinal α inp r) 0 = .fin 0
      rw [hn]
      rfl
  · intro α ac inp h
    simp only [nuclearAdoptionWiring, h]
    exact ⟨_, rfl⟩

/-- Witness for C4 at a concrete input: with both market rows zero the
wiring succeeds and the 2050 reference anchor of World is zero. -/
theorem nuclear_ref_anchor_scaling_witness :
    nuclearAdoptionWiring Nat ac_optimum inpZero =
      .ok ⟨inpZero.pds_ca_data, inpZero.pds_ca_trend, none, none,
        fun r => .fin (ht_ref_adoption_initial r),
        fun r => PyFloat.fillna (htRefFinal Nat inpZero r) 0,
        fun r => .fin (ht_ref_adoption_initial r),
        fun r => PyFloat.fillna (htPdsFinal Nat ac_optimum inpZero r) 0⟩ ∧
    PyFloat.fillna (htRefFinal Nat inpZero Region.World) 0 = PyFloat.fin 0 :=
  ⟨rfl,
   (nuclear_ref_anchor_scaling.1 Nat ac_optimum inpZero
      ⟨inpZero.pds_ca_data, inpZero.pds_ca_trend, none, none,
        fun r => .fin (ht_ref_adoption_initial r),
        fun r => PyFloat.fillna (htRefFinal Nat inpZero r) 0,
        fun r => .fin (ht_ref_adoption_initial r),
        fun r => PyFloat.fillna (htPdsFinal Nat ac_optimum inpZero r) 0⟩ rfl).2.1
     Region.World rfl⟩

/-- Counterexample to C9 as stated: at a concrete unhandled basis the
wiring fails with the unbound-local name error on
pds_adoption_data_per_region, which is not an UnhandledAdoptionBasis
configuration error. -/
theorem nuclear_unhandled_basis_counterexample :
    nuclearAdoptionWiring Nat ac_bogus inp0 =
      .error (.nameError "pds_adoption_data_per_region") ∧
    (PyError.nameError "pds_adoption_data_per_region").isUnhandledAdoptionBasis = false :=
  ⟨rfl, rfl⟩

/-- C9 amended: for every configuration whose soln_pds_adoption_basis is
neither Fully Customized PDS nor Existing Adoption Prognostications, the
wiring fails at construction with the unbound-local name error on
pds_adoption_data_per_region, producing no wiring result. -/
theorem nuclear_unhandled_basis_name_error :
    ∀ (α : Type) (ac : AdvancedControls) (inp : NuclearInputs α),
      ac.soln_pds_adoption_basis ≠ "Fully Customized PDS" →
      ac.soln_pds_adoption_basis ≠ "Existing Adoption Prognostications" →
      nuclearAdoptionWiring α ac inp =
        .error (.nameError "pds_adoption_data_per_region") := by
  intro α ac inp h1 h2
  simp only [nuclearAdoptionWiring, if_neg h1, if_neg h2]

/-- Witness for the amended C9 at a concrete input. -/
theorem nuclear_unhandled_basis_name_error_witness :
    nuclearAdoptionWiring Nat ac_bogus inpNaN =
      .error (.nameError "pds_adoption_data_per_region") :=
  nuclear_unhandled_basis_name_error Nat ac_bogus inpNaN (by decide) (by decide)
